import Mathlib

/-!
Verification of the image media-type detection utility
(`fix_image_media_type.py`).

The program reads the first 12 bytes of a file (the header window) and
classifies them against seven magic-byte rules, returning a media-type
string or `None`.  We embed the byte-level logic shallowly: bytes are
`Nat`, a header window is a `List Nat`, the outcome of reading a file is
an `Option (List Nat)` (`none` models a failed read, `some bytes` a
successful one), and Python `None` becomes `Option.none` of the result.
-/

/-- Embeds the signature-matching portion of `detect_image_type`
(lines 35–66 of the source): the empty-header early return followed by
the seven sequential magic-byte checks.  Python slice comparisons
`header[a:b] == lit` become `(header.drop a).take (b - a) = lit`;
a slice on a short list is short, exactly as in Python. -/
def classifyHeader (header : List Nat) : Option String :=
  if header = [] then
    none
  else if header.take 8 = [0x89, 0x50, 0x4E, 0x47, 0x0D, 0x0A, 0x1A, 0x0A] then
    some "image/png"
  else if header.take 3 = [0xFF, 0xD8, 0xFF] then
    some "image/jpeg"
  else if header.take 4 = [0x52, 0x49, 0x46, 0x46] ∧ (header.drop 8).take 4 = [0x57, 0x45, 0x42, 0x50] then
    some "image/webp"
  else if header.take 6 = [0x47, 0x49, 0x46, 0x38, 0x37, 0x61] ∨ header.take 6 = [0x47, 0x49, 0x46, 0x38, 0x39, 0x61] then
    some "image/gif"
  else if header.take 2 = [0x42, 0x4D] then
    some "image/bmp"
  else if header.take 4 = [0x00, 0x00, 0x01, 0x00] then
    some "image/x-icon"
  else if header.take 2 = [0x49, 0x49] ∨ header.take 2 = [0x4D, 0x4D] then
    some "image/tiff"
  else
    none

/-- Embeds `detect_image_type` as a whole: the `try` block opens the file
and reads at most 12 bytes; any raised exception is caught and mapped to
`None`.  The read outcome is modelled as `Option (List Nat)`: `none` for
a read that raised, `some header` for a successful read of the header
window. -/
def detect_image_type (readResult : Option (List Nat)) : Option String :=
  match readResult with
  | none => none
  | some header => classifyHeader header

/-- Embeds a call of `detect_image_type` on a readable file with the given
path and full byte content: `f.read(12)` yields the first 12 bytes of the
content, and the path is used only to open the file, never in the
classification logic. -/
def detect_from_file (filePath : String) (content : List Nat) : Option String :=
  classifyHeader (content.take 12)

/-- The PNG match condition of the rule table, as a boolean predicate:
bytes 0–7 equal `89 50 4E 47 0D 0A 1A 0A`. -/
def pngRule (h : List Nat) : Bool :=
  decide (h.take 8 = [0x89, 0x50, 0x4E, 0x47, 0x0D, 0x0A, 0x1A, 0x0A])

/-- The JPEG match condition: bytes 0–2 equal `FF D8 FF`. -/
def jpegRule (h : List Nat) : Bool :=
  decide (h.take 3 = [0xFF, 0xD8, 0xFF])

/-- The WEBP match condition: bytes 0–3 spell RIFF and bytes 8–11 spell WEBP. -/
def webpRule (h : List Nat) : Bool :=
  decide (h.take 4 = [0x52, 0x49, 0x46, 0x46] ∧ (h.drop 8).take 4 = [0x57, 0x45, 0x42, 0x50])

/-- The GIF match condition: bytes 0–5 spell GIF87a or GIF89a. -/
def gifRule (h : List Nat) : Bool :=
  decide (h.take 6 = [0x47, 0x49, 0x46, 0x38, 0x37, 0x61] ∨ h.take 6 = [0x47, 0x49, 0x46, 0x38, 0x39, 0x61])

/-- The BMP match condition: bytes 0–1 spell BM. -/
def bmpRule (h : List Nat) : Bool :=
  decide (h.take 2 = [0x42, 0x4D])

/-- The ICO match condition: bytes 0–3 equal `00 00 01 00`. -/
def icoRule (h : List Nat) : Bool :=
  decide (h.take 4 = [0x00, 0x00, 0x01, 0x00])

/-- The TIFF match condition: bytes 0–1 spell II or MM. -/
def tiffRule (h : List Nat) : Bool :=
  decide (h.take 2 = [0x49, 0x49] ∨ h.take 2 = [0x4D, 0x4D])

/-- The rule table of the specification, §4.1: the seven
(match condition, media type) pairs in priority order. -/
def ruleTable : List ((List Nat → Bool) × String) :=
  [ (pngRule,  "image/png"),
    (jpegRule, "image/jpeg"),
    (webpRule, "image/webp"),
    (gifRule,  "image/gif"),
    (bmpRule,  "image/bmp"),
    (icoRule,  "image/x-icon"),
    (tiffRule, "image/tiff") ]

/-- Evaluates an ordered list of (condition, media type) rules on a header:
the first rule whose condition holds wins, and `none` results when no rule
matches.  This is the "explicit ordered list of (predicate, classification)
pairs evaluated in priority order" of the specification. -/
def applyRules : List ((List Nat → Bool) × String) → List Nat → Option String
  | [], _ => none
  | (p, s) :: rest, h => if p h then some s else applyRules rest h

/-- Embeds the standard base64 alphabet (RFC 4648), as used by Python
`base64.b64encode`: value `n < 64` maps to the `n`-th character. -/
def base64Char (n : Nat) : Char :=
  "ABCDEFGHIJKLMNOPQRSTUVWXYZabcdefghijklmnopqrstuvwxyz0123456789+/".toList.getD n 'A'

/-- Encodes a byte list in standard base64, three input bytes per
four-character group, with `=` padding on a trailing group of one or two
bytes — the encoding `base64.b64encode` performs. -/
def base64EncodeList : List Nat → List Char
  | [] => []
  | [a] =>
      [base64Char (a / 4), base64Char (a % 4 * 16), '=', '=']
  | [a, b] =>
      [base64Char (a / 4), base64Char (a % 4 * 16 + b / 16), base64Char (b % 16 * 4), '=']
  | a :: b :: c :: rest =>
      base64Char (a / 4) :: base64Char (a % 4 * 16 + b / 16) ::
      base64Char (b % 16 * 4 + c / 64) :: base64Char (c % 64) :: base64EncodeList rest

/-- The base64 text of a byte list, as a string (the value of
`base64.b64encode(data).decode('utf-8')`). -/
def base64Encode (bs : List Nat) : String :=
  String.mk (base64EncodeList bs)

/-- Embeds `get_base64_with_correct_type` (lines 73–94): classify via
`detect_image_type`; when that yields `None`, raise `ValueError` (modelled
as `Except.error` carrying the static part of the message); otherwise read
the entire content and return the (media type, base64 text) pair.  The
file is modelled as the outcome of reading it: `none` when reads raise,
`some content` when the file is readable with the given full content;
`detect_image_type` then sees the first 12 bytes of that content. -/
def get_base64_with_correct_type (file : Option (List Nat)) : Except String (String × String) :=
  match detect_image_type (Option.map (List.take 12) file) with
  | none => Except.error "Could not detect image type"
  | some media_type =>
    match file with
    | none => Except.error "Error reading file"
    | some image_data => Except.ok (media_type, base64Encode image_data)

/-! ### Helper lemmas -/

/-- A list whose `n`-byte prefix is known decomposes as that prefix
followed by the rest. -/
lemma eq_append_drop_of_take {h l : List Nat} {n : Nat} (e : h.take n = l) :
    h = l ++ h.drop n := by
  conv_lhs => rw [← List.take_append_drop n h]
  rw [e]

/-- A known longer prefix determines every shorter prefix. -/
lemma take_of_take (m : Nat) {h l : List Nat} {n : Nat} (hmn : m ≤ n) (e : h.take n = l) :
    h.take m = l.take m := by
  rw [← e, List.take_take, Nat.min_eq_left hmn]

/-! ### C1 -/

/-- C1: the claim asserts that a failed read and a successful read that
matches no rule yield distinct results.  In the code both yield `None`:
`detect_image_type` returns `None` from the `except` branch and `None`
again when no signature matches (here at header bytes AB CD EF), so the
two outcomes are the very same value. -/
theorem c1_read_failure_conflated_with_unknown :
    detect_image_type none = detect_image_type (some [0xAB, 0xCD, 0xEF]) ∧
    detect_image_type none = none :=
  ⟨rfl, rfl⟩

/-! ### C2 -/

/-- C2: on every header byte sequence, the sequential conditionals of
`detect_image_type` compute exactly the first-match-wins evaluation of the
seven-rule priority table (PNG, JPEG, WEBP, GIF, BMP, ICO, TIFF), with
`none` (UNKNOWN) when no rule matches. -/
theorem c2_classification_is_first_match_of_rule_table :
    ∀ h : List Nat, classifyHeader h = applyRules ruleTable h := by
  intro h
  cases h with
  | nil => rfl
  | cons a t =>
    simp only [classifyHeader, applyRules, ruleTable, pngRule, jpegRule, webpRule,
      gifRule, bmpRule, icoRule, tiffRule, decide_eq_true_eq]
    rw [if_neg (List.cons_ne_nil a t)]

/-! ### C3 -/

/-- C3: classification is a pure function of the first 12 bytes of the
file: for any two files (any paths, any contents) agreeing on their first
12 bytes, `detect_image_type` returns the same result, independent of the
file name, extension, and everything past byte 12. -/
theorem c3_determined_by_first_twelve_bytes :
    ∀ (p1 p2 : String) (c1 c2 : List Nat), c1.take 12 = c2.take 12 →
      detect_from_file p1 c1 = detect_from_file p2 c2 := by
  intro p1 p2 c1 c2 hsame
  unfold detect_from_file
  rw [hsame]

/-- C3 witness: a PNG file and a copy with a different name, a different
extension, a different length and different trailing bytes classify
identically. -/
theorem c3_witness :
    detect_from_file "photo.png"
      [0x89, 0x50, 0x4E, 0x47, 0x0D, 0x0A, 0x1A, 0x0A, 0, 0, 0, 13, 73] =
    detect_from_file "photo.webp"
      [0x89, 0x50, 0x4E, 0x47, 0x0D, 0x0A, 0x1A, 0x0A, 0, 0, 0, 13, 255, 254, 253] :=
  c3_determined_by_first_twelve_bytes _ _ _ _ (by decide)

/-- A prefix extraction cannot produce a list longer than the input:
whenever the input is shorter than `n`, `take n` differs from any list of
length `n`. -/
lemma take_ne_of_length_lt {h l : List Nat} {n : Nat}
    (hlen : h.length < n) (hl : l.length = n) : h.take n ≠ l := by
  intro e
  have := congrArg List.length e
  rw [List.length_take, hl] at this
  omega

/-! ### C4 -/

/-- C4: a RIFF header whose bytes 8–11 are not WEBP (for example a WAV
file) classifies as UNKNOWN — it is not WEBP and not any other format. -/
theorem c4_riff_without_webp_tag_is_unknown :
    ∀ h : List Nat, h.take 4 = [0x52, 0x49, 0x46, 0x46] →
      (h.drop 8).take 4 ≠ [0x57, 0x45, 0x42, 0x50] →
      classifyHeader h = none := by
  intro h hriff hwebp
  rw [eq_append_drop_of_take hriff]
  simp only [List.cons_append, List.nil_append]
  simp [classifyHeader, hwebp]

/-- C4 witness: the first 12 bytes of a WAV file (RIFF + size + WAVE)
classify as UNKNOWN. -/
theorem c4_witness :
    classifyHeader [0x52, 0x49, 0x46, 0x46, 0x24, 0x00, 0x00, 0x00, 0x57, 0x41, 0x56, 0x45] = none :=
  c4_riff_without_webp_tag_is_unknown _ (by decide) (by decide)

/-! ### C5 -/

/-- C5: a header shorter than a rule's required byte count makes that rule
fail to match (the required lengths are 8 for PNG, 3 for JPEG, 12 for
WEBP, 6 for GIF, 2 for BMP, 4 for ICO, 2 for TIFF), and in particular the
first 4 bytes of the PNG signature alone classify as UNKNOWN.  No error is
possible: every matcher is a total function. -/
theorem c5_short_headers_never_match :
    (∀ h : List Nat, h.length < 8 → pngRule h = false) ∧
    (∀ h : List Nat, h.length < 3 → jpegRule h = false) ∧
    (∀ h : List Nat, h.length < 12 → webpRule h = false) ∧
    (∀ h : List Nat, h.length < 6 → gifRule h = false) ∧
    (∀ h : List Nat, h.length < 2 → bmpRule h = false) ∧
    (∀ h : List Nat, h.length < 4 → icoRule h = false) ∧
    (∀ h : List Nat, h.length < 2 → tiffRule h = false) ∧
    classifyHeader [0x89, 0x50, 0x4E, 0x47] = none := by
  refine ⟨?_, ?_, ?_, ?_, ?_, ?_, ?_, by decide⟩
  · intro h hlen
    exact decide_eq_false (take_ne_of_length_lt hlen (by decide))
  · intro h hlen
    exact decide_eq_false (take_ne_of_length_lt hlen (by decide))
  · intro h hlen
    refine decide_eq_false ?_
    rintro ⟨-, e2⟩
    refine take_ne_of_length_lt ?_ (by decide) e2
    rw [List.length_drop]
    omega
  · intro h hlen
    refine decide_eq_false ?_
    rintro (e | e) <;> exact take_ne_of_length_lt hlen (by decide) e
  · intro h hlen
    exact decide_eq_false (take_ne_of_length_lt hlen (by decide))
  · intro h hlen
    exact decide_eq_false (take_ne_of_length_lt hlen (by decide))
  · intro h hlen
    refine decide_eq_false ?_
    rintro (e | e) <;> exact take_ne_of_length_lt hlen (by decide) e

/-- C5 witness: the truncated PNG signature is too short for the PNG rule,
too short for the WEBP rule, and classifies as UNKNOWN. -/
theorem c5_witness :
    pngRule [0x89, 0x50, 0x4E, 0x47] = false ∧
    webpRule [0x89, 0x50, 0x4E, 0x47] = false ∧
    classifyHeader [0x89, 0x50, 0x4E, 0x47] = none :=
  ⟨c5_short_headers_never_match.1 _ (by decide),
   c5_short_headers_never_match.2.2.1 _ (by decide),
   c5_short_headers_never_match.2.2.2.2.2.2.2⟩

/-! ### C10 -/

/-- C10: every header beginning with the four bytes 00 00 01 00 classifies
to exactly the string "image/x-icon". -/
theorem c10_ico_media_type_string :
    ∀ h : List Nat, h.take 4 = [0x00, 0x00, 0x01, 0x00] →
      classifyHeader h = some "image/x-icon" := by
  intro h hico
  rw [eq_append_drop_of_take hico]
  simp [classifyHeader]

/-- C10 witness: a minimal ICO header classifies as "image/x-icon". -/
theorem c10_witness :
    classifyHeader [0x00, 0x00, 0x01, 0x00] = some "image/x-icon" :=
  c10_ico_media_type_string _ (by decide)

/-! ### C6 -/

/-- The signature matcher returns "image/webp" exactly on headers whose
bytes 0–3 spell RIFF and bytes 8–11 spell WEBP. -/
lemma classifyHeader_eq_webp_iff (h : List Nat) :
    classifyHeader h = some "image/webp" ↔
      h.take 4 = [0x52, 0x49, 0x46, 0x46] ∧
      (h.drop 8).take 4 = [0x57, 0x45, 0x42, 0x50] := by
  unfold classifyHeader
  by_cases hemp : h = []
  · subst hemp
    simp
  · rw [if_neg hemp]
    by_cases hpng : h.take 8 = [0x89, 0x50, 0x4E, 0x47, 0x0D, 0x0A, 0x1A, 0x0A]
    · rw [if_pos hpng]
      refine iff_of_false (by decide) ?_
      rintro ⟨hr, -⟩
      have h4 := take_of_take 4 (by omega) hpng
      rw [hr] at h4
      exact absurd h4 (by decide)
    · rw [if_neg hpng]
      by_cases hjpeg : h.take 3 = [0xFF, 0xD8, 0xFF]
      · rw [if_pos hjpeg]
        refine iff_of_false (by decide) ?_
        rintro ⟨hr, -⟩
        have h3 := take_of_take 3 (by omega) hr
        rw [hjpeg] at h3
        exact absurd h3 (by decide)
      · rw [if_neg hjpeg]
        by_cases hwebp : h.take 4 = [0x52, 0x49, 0x46, 0x46] ∧
            (h.drop 8).take 4 = [0x57, 0x45, 0x42, 0x50]
        · rw [if_pos hwebp]
          exact iff_of_true rfl hwebp
        · rw [if_neg hwebp]
          split_ifs with h1 h2 h3 h4 <;> exact iff_of_false (by decide) hwebp

/-- C6: across the whole dispatcher — failed reads included — the result
is "image/webp" exactly when the read succeeded and the header carries
RIFF at bytes 0–3 and WEBP at bytes 8–11; a failed read never yields a
media-type string at all. -/
theorem c6_webp_iff_riff_and_webp_tag :
    (∀ r : Option (List Nat),
      detect_image_type r = some "image/webp" ↔
        ∃ h, r = some h ∧ h.take 4 = [0x52, 0x49, 0x46, 0x46] ∧
          (h.drop 8).take 4 = [0x57, 0x45, 0x42, 0x50]) ∧
    detect_image_type none = none := by
  refine ⟨fun r => ?_, rfl⟩
  cases r with
  | none => simp [detect_image_type]
  | some h => simpa [detect_image_type] using classifyHeader_eq_webp_iff h

/-- C6 witness: a well-formed WebP header classifies as "image/webp",
through the right-to-left direction of the characterisation. -/
theorem c6_witness :
    detect_image_type (some [0x52, 0x49, 0x46, 0x46, 0x24, 0x00, 0x00, 0x00, 0x57, 0x45, 0x42, 0x50]) =
      some "image/webp" :=
  (c6_webp_iff_riff_and_webp_tag.1 _).mpr ⟨_, rfl, by decide, by decide⟩

/-! ### C7 -/

/-- C7: the packager fails with the descriptive `ValueError` message
exactly when classification of the read outcome yields `None` (which
covers both UNKNOWN and a failed read); when classification succeeds the
packager returns the media type paired with the standard base64 text of
the entire file content. -/
theorem c7_packager_fails_iff_no_classification :
    ∀ file : Option (List Nat),
      (detect_image_type (Option.map (List.take 12) file) = none →
        get_base64_with_correct_type file = Except.error "Could not detect image type") ∧
      (∀ mt, detect_image_type (Option.map (List.take 12) file) = some mt →
        ∃ content, file = some content ∧
          get_base64_with_correct_type file = Except.ok (mt, base64Encode content)) := by
  intro file
  constructor
  · intro hnone
    unfold get_base64_with_correct_type
    rw [hnone]
  · intro mt hmt
    cases file with
    | none => simp [detect_image_type] at hmt
    | some content =>
      refine ⟨content, rfl, ?_⟩
      unfold get_base64_with_correct_type
      rw [hmt]

/-- C7 witness: an unreadable file makes the packager fail, and a minimal
PNG content makes it return the media type with the base64 text. -/
theorem c7_witness :
    get_base64_with_correct_type none = Except.error "Could not detect image type" ∧
    ∃ content, (some [0x89, 0x50, 0x4E, 0x47, 0x0D, 0x0A, 0x1A, 0x0A] : Option (List Nat)) = some content ∧
      get_base64_with_correct_type (some [0x89, 0x50, 0x4E, 0x47, 0x0D, 0x0A, 0x1A, 0x0A]) =
        Except.ok ("image/png", base64Encode content) :=
  ⟨(c7_packager_fails_iff_no_classification none).1 rfl,
   (c7_packager_fails_iff_no_classification
      (some [0x89, 0x50, 0x4E, 0x47, 0x0D, 0x0A, 0x1A, 0x0A])).2 "image/png" (by decide)⟩

/-! ### C8 -/

/-- C8: classification of the empty byte sequence is UNKNOWN (`None`). -/
theorem c8_empty_header_is_unknown : classifyHeader [] = none := rfl

/-! ### C9 -/

/-- The first bytes a matching header may start with, per media type of
the rule table: each rule pins the first byte (TIFF admits two). -/
def allowedFirst (s : String) : List Nat :=
  if s = "image/png" then [0x89]
  else if s = "image/jpeg" then [0xFF]
  else if s = "image/webp" then [0x52]
  else if s = "image/gif" then [0x47]
  else if s = "image/bmp" then [0x42]
  else if s = "image/x-icon" then [0x00]
  else [0x49, 0x4D]

/-- A header matched by a rule of the table starts with one of that
rule's allowed first bytes. -/
lemma first_byte_of_match :
    ∀ r ∈ ruleTable, ∀ h : List Nat, r.1 h = true →
      ∃ b ∈ allowedFirst r.2, h.take 1 = [b] := by
  intro r hr h e
  simp only [ruleTable, List.mem_cons, List.not_mem_nil, or_false] at hr
  rcases hr with rfl | rfl | rfl | rfl | rfl | rfl | rfl
  · rw [show ((pngRule, "image/png") : (List Nat → Bool) × String).1 = pngRule from rfl,
      pngRule, decide_eq_true_eq] at e
    exact ⟨0x89, by decide, (take_of_take 1 (by omega) e).trans (by decide)⟩
  · rw [show ((jpegRule, "image/jpeg") : (List Nat → Bool) × String).1 = jpegRule from rfl,
      jpegRule, decide_eq_true_eq] at e
    exact ⟨0xFF, by decide, (take_of_take 1 (by omega) e).trans (by decide)⟩
  · rw [show ((webpRule, "image/webp") : (List Nat → Bool) × String).1 = webpRule from rfl,
      webpRule, decide_eq_true_eq] at e
    exact ⟨0x52, by decide, (take_of_take 1 (by omega) e.1).trans (by decide)⟩
  · rw [show ((gifRule, "image/gif") : (List Nat → Bool) × String).1 = gifRule from rfl,
      gifRule, decide_eq_true_eq] at e
    rcases e with e | e <;>
      exact ⟨0x47, by decide, (take_of_take 1 (by omega) e).trans (by decide)⟩
  · rw [show ((bmpRule, "image/bmp") : (List Nat → Bool) × String).1 = bmpRule from rfl,
      bmpRule, decide_eq_true_eq] at e
    exact ⟨0x42, by decide, (take_of_take 1 (by omega) e).trans (by decide)⟩
  · rw [show ((icoRule, "image/x-icon") : (List Nat → Bool) × String).1 = icoRule from rfl,
      icoRule, decide_eq_true_eq] at e
    exact ⟨0x00, by decide, (take_of_take 1 (by omega) e).trans (by decide)⟩
  · rw [show ((tiffRule, "image/tiff") : (List Nat → Bool) × String).1 = tiffRule from rfl,
      tiffRule, decide_eq_true_eq] at e
    rcases e with e | e
    · exact ⟨0x49, by decide, (take_of_take 1 (by omega) e).trans (by decide)⟩
    · exact ⟨0x4D, by decide, (take_of_take 1 (by omega) e).trans (by decide)⟩

/-- Distinct media types of the table admit disjoint first bytes. -/
lemma allowedFirst_disjoint :
    ∀ s1 ∈ ruleTable.map Prod.snd, ∀ s2 ∈ ruleTable.map Prod.snd, s1 ≠ s2 →
      ∀ b : Nat, b ∈ allowedFirst s1 → b ∈ allowedFirst s2 → False := by
  decide

/-- The media types of the rule table are pairwise distinct, so a table
entry is determined by its media type. -/
lemma ruleTable_strings_nodup : (ruleTable.map Prod.snd).Nodup := by
  decide

/-- At most one entry of the rule table can match any given header. -/
lemma ruleTable_at_most_one_match :
    ∀ r1 ∈ ruleTable, ∀ r2 ∈ ruleTable, ∀ h : List Nat,
      r1.1 h = true → r2.1 h = true → r1 = r2 := by
  intro r1 hr1 r2 hr2 h e1 e2
  obtain ⟨b1, hb1, ht1⟩ := first_byte_of_match r1 hr1 h e1
  obtain ⟨b2, hb2, ht2⟩ := first_byte_of_match r2 hr2 h e2
  have hb : b1 = b2 := by
    have := ht1.symm.trans ht2
    simpa using this
  subst hb
  have hs : r1.2 = r2.2 := by
    by_contra hne
    exact allowedFirst_disjoint r1.2 (List.mem_map_of_mem Prod.snd hr1)
      r2.2 (List.mem_map_of_mem Prod.snd hr2) hne b1 hb1 hb2
  exact List.inj_on_of_nodup_map ruleTable_strings_nodup hr1 hr2 hs

/-- Priority evaluation is exactly a first-match search over the list. -/
lemma applyRules_eq_find? (l : List ((List Nat → Bool) × String)) (h : List Nat) :
    applyRules l h = (l.find? (fun r => r.1 h)).map Prod.snd := by
  induction l with
  | nil => rfl
  | cons r rest ih =>
    obtain ⟨p, s⟩ := r
    cases hp : p h with
    | true => simp [applyRules, List.find?, hp]
    | false => simp [applyRules, List.find?, hp, ih]

/-- When at most one element satisfies the predicate, a first-match
search returns the same element on any permutation of the list. -/
lemma find?_perm_of_unique {α : Type} (p : α → Bool) {l l2 : List α}
    (hperm : l.Perm l2)
    (huniq : ∀ a ∈ l, ∀ b ∈ l, p a = true → p b = true → a = b) :
    l.find? p = l2.find? p := by
  cases hfind : l.find? p with
  | none =>
    rw [List.find?_eq_none] at hfind
    symm
    rw [List.find?_eq_none]
    intro x hx
    exact hfind x (hperm.symm.subset hx)
  | some a =>
    have hpa : p a = true := List.find?_some hfind
    have hal : a ∈ l := List.mem_of_find?_eq_some hfind
    cases hfind2 : l2.find? p with
    | none =>
      rw [List.find?_eq_none] at hfind2
      exact absurd hpa (hfind2 a (hperm.subset hal))
    | some b =>
      have hpb : p b = true := List.find?_some hfind2
      have hbl : b ∈ l2 := List.mem_of_find?_eq_some hfind2
      rw [huniq a hal b (hperm.symm.subset hbl) hpa hpb]

/-- C9: the seven rule conditions are pairwise mutually exclusive — two
rules of the table that both match a header are the same rule — and
consequently first-match evaluation of the table is invariant under any
reordering of the rules. -/
theorem c9_rules_mutually_exclusive_and_order_irrelevant :
    (∀ r1 ∈ ruleTable, ∀ r2 ∈ ruleTable, ∀ h : List Nat,
      r1.1 h = true → r2.1 h = true → r1 = r2) ∧
    (∀ l, ruleTable.Perm l → ∀ h : List Nat, applyRules l h = applyRules ruleTable h) := by
  refine ⟨ruleTable_at_most_one_match, fun l hperm h => ?_⟩
  rw [applyRules_eq_find?, applyRules_eq_find?]
  rw [find?_perm_of_unique (fun r => r.1 h) hperm.symm ?_]
  intro a ha b hb
  exact ruleTable_at_most_one_match a (hperm.symm.subset ha) b (hperm.symm.subset hb) h

/-- C9 witness: both matching BMP entries coincide, and evaluating the
reversed rule table on a BMP header gives the same result as the table in
priority order. -/
theorem c9_witness :
    ((bmpRule, "image/bmp") : (List Nat → Bool) × String) = (bmpRule, "image/bmp") ∧
    applyRules (List.reverse ruleTable) [0x42, 0x4D] = applyRules ruleTable [0x42, 0x4D] := by
  constructor
  · exact c9_rules_mutually_exclusive_and_order_irrelevant.1
      (bmpRule, "image/bmp") (by simp [ruleTable])
      (bmpRule, "image/bmp") (by simp [ruleTable])
      [0x42, 0x4D] (by decide) (by decide)
  · exact c9_rules_mutually_exclusive_and_order_irrelevant.2
      (List.reverse ruleTable) (List.reverse_perm ruleTable).symm [0x42, 0x4D]
